import Mathlib

/-!
Shallow embedding of the DHAPI e-commerce backend (TypeScript) for checking
its natural-language specification.

The repository contains several near-duplicate revisions of the same
`repository.ts`.  The claims cite two of them:

* the Postgres / Cloudinary revision (source file `src/unnamed/part_003`,
  the `repository.ts` imported by `src/src/app.ts`) — embedded below in
  namespace `Pg`;
* the compiled MySQL / local-filesystem revision (source file
  `src/unnamed/part_000`, `dist/repository.js`) — embedded below in
  namespace `My`.

Modelling conventions:

* A database is a `DB` value: one list of rows per table plus the
  auto-increment counter of each table's id sequence.
* `created_at` / `Created_Date` columns are wall-clock timestamps taken
  from `new Date()` at run time; they are independent of every claim and
  are omitted from the row models.
* External image storage (Cloudinary or the local `uploads/products`
  directory) is a list of stable references (URLs resp. filenames).
* Fallible operations return `Except`.  Where a claim is about failure
  atomicity, the embedding takes an explicit failure-injection argument
  (`fail : Option Nat`, the index of the SQL statement that raises, in
  the order the source executes them); `none` means every statement
  succeeds.
-/

/-- Row of the `users` table (`entities.ts`, interface `User`). -/
structure UserRow where
  id : Nat
  name : String
  email : String
  age : Int
  password_hash : String
  is_active : Int
deriving DecidableEq

/-- Row of the `products` table (`entities.ts`, interface `Product`;
`none` models SQL NULL). -/
structure ProductRow where
  id : Nat
  name : String
  price : Int
  description : String
  active : String
  specialprice : Option Int
  image_url : Option String
  image_url2 : Option String
  image_url3 : Option String
  image_url4 : Option String
  groupid : Option Nat
deriving DecidableEq

/-- Row of the `moqs` table (`entities.ts`, interface `MOQ`). -/
structure MOQRow where
  id : Nat
  product_id : Nat
  moq : Int
  rate : Int
deriving DecidableEq

/-- Row of the `orderfile` table (`entities.ts`, interface `orderfile`). -/
structure OrderRow where
  id : Nat
  CustomerCode : String
  Itemcode : Int
  Qty : Int
  Rate : Int
  Amount : Int
  status : String
  TransactionId : Option String
  cancel : Int
  Address : String
  deliverycharge : Int
  Email : String
deriving DecidableEq

/-- Row of the `orderdetail` table, as inserted by
`OrderDetailRepository.createForOrder` (`orderId, Itemcode, Qty, Rate, Amount`). -/
structure DetailRow where
  id : Nat
  orderId : Nat
  Itemcode : Int
  Qty : Int
  Rate : Int
  Amount : Int
deriving DecidableEq

/-- The six-table database state plus the id sequences. -/
structure DB where
  users : List UserRow
  products : List ProductRow
  moqs : List MOQRow
  orders : List OrderRow
  orderDetails : List DetailRow
  nextUserId : Nat
  nextProductId : Nat
  nextMoqId : Nat
  nextOrderId : Nat
  nextDetailId : Nat
deriving DecidableEq

/-- The empty database. -/
def emptyDB : DB :=
  { users := [], products := [], moqs := [], orders := [], orderDetails := [],
    nextUserId := 1, nextProductId := 1, nextMoqId := 1, nextOrderId := 1,
    nextDetailId := 1 }

/-! ### `ORDER BY moq ASC`

`findByProductId` runs `SELECT * FROM moqs WHERE product_id = ? ORDER BY moq ASC`.
The result order is modelled as a stable insertion sort on the `moq` column
(rows with equal `moq` keep their insertion order). -/

/-- Insert one row into a list that is already ascending by `moq`, before the
first row with a strictly larger or equal key kept stable. -/
def insertByMoq (m : MOQRow) : List MOQRow → List MOQRow
  | [] => [m]
  | x :: xs => if m.moq ≤ x.moq then m :: x :: xs else x :: insertByMoq m xs

/-- Stable sort of MOQ rows ascending by `moq` (the `ORDER BY moq ASC` model). -/
def sortByMoq : List MOQRow → List MOQRow
  | [] => []
  | x :: xs => insertByMoq x (sortByMoq xs)

/-- The comparison used by `ORDER BY moq ASC`. -/
def moqLE (a b : MOQRow) : Prop := a.moq ≤ b.moq

/-- MOQ tier as supplied by callers (`Omit<MOQ, 'id' | 'product_id' | 'created_at'>`). -/
structure MOQInput where
  moq : Int
  rate : Int
deriving DecidableEq

/-- The rows produced by the MOQ insert loop
(`INSERT INTO moqs (product_id, moq, rate, ...) VALUES ...`, one row per list
element, ids drawn consecutively from the sequence). -/
def mkMoqRows (pid : Nat) (start : Nat) : List MOQInput → List MOQRow
  | [] => []
  | q :: qs => { id := start, product_id := pid, moq := q.moq, rate := q.rate }
      :: mkMoqRows pid (start + 1) qs

/-! ### JavaScript falsy-default helpers

The source applies defaults with `v || d`; `undefined`, `null`, `''` and `0`
are all falsy in JavaScript. -/

/-- JS `v || d` for a possibly-absent string (`undefined`, `null` and `''`
all fall back to `d`). -/
def jsOrStr (v : Option String) (d : String) : String :=
  match v with
  | none => d
  | some s => if s = "" then d else s

/-- JS `v || null` for a possibly-absent string (`''` collapses to null). -/
def jsOrNullStr (v : Option String) : Option String :=
  match v with
  | none => none
  | some s => if s = "" then none else some s

/-- JS `v || null` for a possibly-absent number (`0` collapses to null). -/
def jsOrNullInt (v : Option Int) : Option Int :=
  match v with
  | none => none
  | some n => if n = 0 then none else some n

/-- JS `v || null` for a possibly-absent id (`0` collapses to null). -/
def jsOrNullNat (v : Option Nat) : Option Nat :=
  match v with
  | none => none
  | some n => if n = 0 then none else some n

/-! ### Character-list string primitives

The JS string operations the source uses (`startsWith`, `includes`,
`slice`/prefix removal, `split`) are modelled structurally on the
character list of the string, so that they evaluate on concrete inputs. -/

/-- `s` starts with `p` (JS `String.prototype.startsWith`). -/
def startsWithChars : List Char → List Char → Bool
  | _, [] => true
  | [], _ :: _ => false
  | a :: as, b :: bs => a = b && startsWithChars as bs

/-- `s.startsWith(p)` on strings. -/
def strStartsWith (s p : String) : Bool :=
  startsWithChars s.data p.data

/-- `s` contains `sub` as a substring (JS `String.prototype.includes`). -/
def containsSubChars : List Char → List Char → Bool
  | _, [] => true
  | [], _ :: _ => false
  | a :: as, sub => startsWithChars (a :: as) sub || containsSubChars as sub

/-- Drop the first `n` characters of `s` (removing a matched prefix). -/
def strDropChars (s : String) (n : Nat) : String :=
  String.mk (s.data.drop n)

/-- `s` contains the character `c`. -/
def strContainsChar (s : String) (c : Char) : Bool :=
  s.data.contains c

/-- Split a character list on a separator character (JS `split`). -/
def splitOnChar (c : Char) : List Char → List (List Char)
  | [] => [[]]
  | x :: xs =>
    match splitOnChar c xs with
    | [] => [[]]
    | h :: t => if x = c then [] :: h :: t else (x :: h) :: t

namespace Pg

/-! ## Postgres / Cloudinary revision (`src/unnamed/part_003`) -/

namespace MOQRepository

/-- `MOQRepository.findByProductId`:
`SELECT * FROM moqs WHERE product_id = $1 ORDER BY moq ASC`. -/
def findByProductId (db : DB) (productId : Nat) : List MOQRow :=
  sortByMoq (db.moqs.filter (fun m => m.product_id = productId))

/-- `MOQRepository.setForProduct`: inside one transaction,
`DELETE FROM moqs WHERE product_id = $1`, then one
`INSERT INTO moqs (product_id, moq, rate, created_at)` per list element,
then `COMMIT`; returns `true`.  The source performs no check that
`productId` exists in `products`. -/
def setForProduct (db : DB) (productId : Nat) (moqs : List MOQInput) : Bool × DB :=
  let kept := db.moqs.filter (fun m => ¬ m.product_id = productId)
  (true,
    { db with
        moqs := kept ++ mkMoqRows productId db.nextMoqId moqs,
        nextMoqId := db.nextMoqId + moqs.length })

end MOQRepository

namespace ProductRepository

/-- `BaseRepository.findById` on `products`:
`SELECT * FROM products WHERE id = $1`, first row or null. -/
def findById (db : DB) (id : Nat) : Option ProductRow :=
  db.products.find? (fun p => p.id = id)

end ProductRepository

/-- Full product fields as supplied to `ProductRepository.createProduct`
(`Omit<Product, 'id' | 'created_at'>`; every key present is inserted). -/
structure ProductFields where
  name : String
  price : Int
  description : String
  active : String
  specialprice : Option Int
  image_url : Option String
  image_url2 : Option String
  image_url3 : Option String
  image_url4 : Option String
  groupid : Option Nat
deriving DecidableEq

/-- A `Partial<Product>` update object, minus `id` and `created_at` (which
`updateProduct` strips before building the SET clause).  The outer `Option`
is JS presence (`undefined` keys are skipped); the inner `Option`, where it
occurs, is SQL NULL. -/
structure ProductPatch where
  name : Option String := none
  price : Option Int := none
  description : Option String := none
  active : Option String := none
  specialprice : Option (Option Int) := none
  image_url : Option (Option String) := none
  image_url2 : Option (Option String) := none
  image_url3 : Option (Option String) := none
  image_url4 : Option (Option String) := none
  groupid : Option (Option Nat) := none
deriving DecidableEq

/-- Whether the dynamic SET-clause builder collects zero `key = $n` pairs. -/
def ProductPatch.isEmpty (p : ProductPatch) : Bool :=
  p.name.isNone && p.price.isNone && p.description.isNone && p.active.isNone &&
  p.specialprice.isNone && p.image_url.isNone && p.image_url2.isNone &&
  p.image_url3.isNone && p.image_url4.isNone && p.groupid.isNone

/-- Effect of `UPDATE products SET <present keys> WHERE id = ...` on one row:
exactly the keys present in the patch are overwritten. -/
def applyPatch (p : ProductPatch) (r : ProductRow) : ProductRow :=
  { r with
      name := p.name.getD r.name,
      price := p.price.getD r.price,
      description := p.description.getD r.description,
      active := p.active.getD r.active,
      specialprice := p.specialprice.getD r.specialprice,
      image_url := p.image_url.getD r.image_url,
      image_url2 := p.image_url2.getD r.image_url2,
      image_url3 := p.image_url3.getD r.image_url3,
      image_url4 := p.image_url4.getD r.image_url4,
      groupid := p.groupid.getD r.groupid }

/-- The row the `INSERT INTO products` of `createProduct` writes, given the
fresh id the sequence returns. -/
def ProductFields.toRow (f : ProductFields) (pid : Nat) : ProductRow :=
  { id := pid, name := f.name, price := f.price,
    description := f.description, active := f.active,
    specialprice := f.specialprice, image_url := f.image_url,
    image_url2 := f.image_url2, image_url3 := f.image_url3,
    image_url4 := f.image_url4, groupid := f.groupid }

namespace ProductRepository

/-- `ProductRepository.createProduct`:
`INSERT INTO products (<keys>) VALUES (<values>) RETURNING id`. -/
def createProduct (db : DB) (f : ProductFields) : Nat × DB :=
  let pid := db.nextProductId
  (pid,
    { db with
        products := db.products ++ [f.toRow pid],
        nextProductId := pid + 1 })

/-- `ProductRepository.updateProduct`: builds `key = $n` pairs for the keys
present in the partial; with zero pairs it returns `false` without touching
the database; otherwise runs the single UPDATE and reports
`affectedRows > 0` (Postgres `rowCount`, i.e. matched rows). -/
def updateProduct (db : DB) (id : Nat) (p : ProductPatch) : Bool × DB :=
  if p.isEmpty then (false, db)
  else
    (db.products.any (fun r => r.id = id),
      { db with
          products := db.products.map
            (fun r => if r.id = id then applyPatch p r else r) })

/-- Row-level effect of
`UPDATE products SET active = CASE WHEN active = 'A' THEN 'I' ELSE 'A' END WHERE id = $1`. -/
def toggleRow (id : Nat) (r : ProductRow) : ProductRow :=
  if r.id = id then { r with active := if r.active = "A" then "I" else "A" } else r

/-- `ProductRepository.toggleActive`: the CASE update above, reporting
`affectedRows > 0`. -/
def toggleActive (db : DB) (id : Nat) : Bool × DB :=
  (db.products.any (fun r => r.id = id),
    { db with products := db.products.map (toggleRow id) })

end ProductRepository

namespace UserRepository

/-- Row-level effect of
`UPDATE users SET is_active = CASE WHEN is_active = 1 THEN 0 ELSE 1 END WHERE id = $1`. -/
def toggleRow (id : Nat) (u : UserRow) : UserRow :=
  if u.id = id then { u with is_active := if u.is_active = 1 then 0 else 1 } else u

/-- `UserRepository.toggleActive`. -/
def toggleActive (db : DB) (id : Nat) : Bool × DB :=
  (db.users.any (fun u => u.id = id),
    { db with users := db.users.map (toggleRow id) })

end UserRepository

/-- The up-to-four image slots of a call.  For an input (`ProductImages`) a
`some` slot carries the stable reference (`secure_url`) that the Cloudinary
upload of that slot's binary content returns; for an output
(`UploadedImages`) a `some` slot is a slot that was uploaded. -/
structure ImagesIn where
  image_url : Option String := none
  image_url2 : Option String := none
  image_url3 : Option String := none
  image_url4 : Option String := none
deriving DecidableEq

/-- The references of the supplied slots, in slot order. -/
def ImagesIn.refs (i : ImagesIn) : List String :=
  [i.image_url, i.image_url2, i.image_url3, i.image_url4].filterMap id

/-- `url.includes('cloudinary.com')`. -/
def isCloudinaryUrl (s : String) : Bool :=
  containsSubChars s.data "cloudinary.com".data

namespace ProductService

/-- `ProductService.uploadProductImages`: uploads every supplied slot to
Cloudinary and records its reference.  Cloudinary storage is external to
every database transaction, so the references are added to storage
unconditionally.  (A per-slot upload failure is caught in the source and
recorded as `''`; no claim depends on it and it is not injected here.) -/
def uploadProductImages (storage : List String) (images : ImagesIn) :
    ImagesIn × List String :=
  (images, storage ++ images.refs)

/-- `ProductService.deleteOldImages`: for every supplied URL that contains
`cloudinary.com`, best-effort destroy of the stored image it refers to
(failures are caught and logged).  Storage is keyed here by the stable
reference itself. -/
def deleteOldImages (storage : List String) (urls : List (Option String)) :
    List String :=
  storage.filter (fun s => !((urls.contains (some s)) && isCloudinaryUrl s))

/-- `productData` as consumed by `ProductService.createProductWithImages`
(the keys the INSERT reads, with JS falsy defaults applied at the call). -/
structure ProductInput where
  name : String
  price : Int
  description : Option String := none
  active : Option String := none
  specialprice : Option Int := none
  groupid : Option Nat := none
deriving DecidableEq

/-- `ProductService.createProductWithImages`:
opens a transaction on one dedicated client, uploads the supplied images to
Cloudinary (external to the transaction), then on that client inserts the
product row (statement 0) and one MOQ row per list element (statement
`1 + k`), and commits.  On any statement failure the catch block issues
`ROLLBACK` on the same client — undoing every statement of this operation —
and rethrows; nothing in the catch block touches the uploaded images.
`fail = some k` injects a failure into the k-th client statement, so any
`k < 1 + moqs.length` yields the unchanged database while storage keeps the
uploads. -/
def createProductWithImages (db : DB) (storage : List String)
    (productData : ProductInput) (moqs : List MOQInput)
    (images : Option ImagesIn) (fail : Option Nat) :
    Except Unit Nat × DB × List String :=
  let up : ImagesIn × List String :=
    match images with
    | none => ({}, storage)
    | some imgs => uploadProductImages storage imgs
  let uploaded := up.1
  let storage1 := up.2
  let pid := db.nextProductId
  let row : ProductRow :=
    { id := pid, name := productData.name, price := productData.price,
      description := jsOrStr productData.description "",
      active := jsOrStr productData.active "A",
      specialprice := jsOrNullInt productData.specialprice,
      image_url := some (jsOrStr uploaded.image_url ""),
      image_url2 := some (jsOrStr uploaded.image_url2 ""),
      image_url3 := some (jsOrStr uploaded.image_url3 ""),
      image_url4 := some (jsOrStr uploaded.image_url4 ""),
      groupid := jsOrNullNat productData.groupid }
  let committed : Except Unit Nat × DB × List String :=
    (Except.ok pid,
      { db with
          products := db.products ++ [row],
          moqs := db.moqs ++ mkMoqRows pid db.nextMoqId moqs,
          nextProductId := pid + 1,
          nextMoqId := db.nextMoqId + moqs.length },
      storage1)
  match fail with
  | some k => if k < 1 + moqs.length then (Except.error (), db, storage1) else committed
  | none => committed

/-- `ProductService.updateProductWithImages`:
on one client, `BEGIN`; select the current image columns of the row — when no
row matches, `throw new Error('Product not found')`, which the catch block
turns into `ROLLBACK` plus a rethrow.  Otherwise: if `images` is supplied,
best-effort delete of each replaced slot's old image, upload of the new ones,
and the fresh references join the update data; the SET clause is built from
the present keys (skipping the UPDATE entirely when there are none); if
`moqs` is supplied (even empty), all MOQ rows of the product are deleted and
the new list inserted; `COMMIT`; returns `true`.  (Statement-failure
injection is not modelled here; the not-found path is the one the claims
exercise.) -/
def updateProductWithImages (db : DB) (storage : List String)
    (productId : Nat) (productData : ProductPatch)
    (moqs : Option (List MOQInput)) (images : Option ImagesIn) :
    Except String Bool × DB × List String :=
  match ProductRepository.findById db productId with
  | none => (Except.error "Product not found", db, storage)
  | some current =>
    let step : ImagesIn × List String :=
      match images with
      | none => ({}, storage)
      | some imgs =>
        let toDelete : List (Option String) :=
          [if imgs.image_url.isSome then current.image_url else none,
           if imgs.image_url2.isSome then current.image_url2 else none,
           if imgs.image_url3.isSome then current.image_url3 else none,
           if imgs.image_url4.isSome then current.image_url4 else none]
        uploadProductImages (deleteOldImages storage toDelete) imgs
    let uploaded := step.1
    let storage2 := step.2
    let patch : ProductPatch :=
      { productData with
          image_url :=
            match uploaded.image_url with
            | some r => some (some r)
            | none => productData.image_url,
          image_url2 :=
            match uploaded.image_url2 with
            | some r => some (some r)
            | none => productData.image_url2,
          image_url3 :=
            match uploaded.image_url3 with
            | some r => some (some r)
            | none => productData.image_url3,
          image_url4 :=
            match uploaded.image_url4 with
            | some r => some (some r)
            | none => productData.image_url4 }
    let db1 :=
      if patch.isEmpty then db
      else
        { db with
            products := db.products.map
              (fun r => if r.id = productId then applyPatch patch r else r) }
    let db2 :=
      match moqs with
      | none => db1
      | some list =>
        { db1 with
            moqs := db1.moqs.filter (fun m => ¬ m.product_id = productId) ++
              mkMoqRows productId db1.nextMoqId list,
            nextMoqId := db1.nextMoqId + list.length }
    (Except.ok true, db2, storage2)

end ProductService

/-- Order fields as supplied to `OrderRepository.create`
(`Omit<orderfile, 'id' | 'Created_Date'>`); the create applies JS falsy
defaults (`|| 0`, `|| 'pending'`, `|| null`, `|| ''`). -/
structure OrderInput where
  CustomerCode : String
  Itemcode : Option Int := none
  Qty : Option Int := none
  Rate : Option Int := none
  Amount : Option Int := none
  status : Option String := none
  TransactionId : Option String := none
  cancel : Option Int := none
  Address : Option String := none
  deliverycharge : Option Int := none
  Email : Option String := none
deriving DecidableEq

/-- Detail fields as supplied to `OrderDetailRepository.createForOrder`
(`Omit<orderdetail, 'id' | 'orderId' | 'Created_Date'>`; the INSERT reads
`Itemcode, Qty, Rate, Amount`). -/
structure DetailInput where
  Itemcode : Int
  Qty : Int
  Rate : Int
  Amount : Int
deriving DecidableEq

/-- The rows produced by the detail INSERT loop, ids drawn consecutively. -/
def mkDetailRows (orderId : Nat) (start : Nat) : List DetailInput → List DetailRow
  | [] => []
  | d :: ds =>
    { id := start, orderId := orderId, Itemcode := d.Itemcode, Qty := d.Qty,
      Rate := d.Rate, Amount := d.Amount } :: mkDetailRows orderId (start + 1) ds

namespace OrderRepository

/-- `OrderRepository.create`: a single
`INSERT INTO orderfile (...) VALUES (...) RETURNING id`, executed through
`query()` — that is `pool.query`, an autocommitted statement on whatever
pooled connection is free, never on a caller's transaction client. -/
def create (db : DB) (o : OrderInput) : Nat × DB :=
  let oid := db.nextOrderId
  (oid,
    { db with
        orders := db.orders ++
          [{ id := oid, CustomerCode := o.CustomerCode,
             Itemcode := o.Itemcode.getD 0, Qty := o.Qty.getD 0,
             Rate := o.Rate.getD 0, Amount := o.Amount.getD 0,
             status := jsOrStr o.status "pending",
             TransactionId := jsOrNullStr o.TransactionId,
             cancel := o.cancel.getD 0, Address := o.Address.getD "",
             deliverycharge := o.deliverycharge.getD 0,
             Email := o.Email.getD "" }],
        nextOrderId := oid + 1 })

end OrderRepository

namespace OrderDetailRepository

/-- `OrderDetailRepository.findByOrderId`:
`SELECT * FROM orderdetail WHERE orderId = $1` (no ORDER BY). -/
def findByOrderId (db : DB) (orderId : Nat) : List DetailRow :=
  db.orderDetails.filter (fun d => d.orderId = orderId)

/-- `OrderDetailRepository.createForOrder`: acquires its own client and runs
its own `BEGIN`; one `INSERT INTO orderdetail (orderId, Itemcode, Qty, Rate,
Amount)` per list element; its own `COMMIT`.  `fail = some k` with
`k < details.length` makes the k-th INSERT raise: the method's own catch
block rolls back the inserts it made and rethrows. -/
def createForOrder (db : DB) (orderId : Nat) (details : List DetailInput)
    (fail : Option Nat) : Except Unit DB :=
  let committed : Except Unit DB :=
    Except.ok
      { db with
          orderDetails := db.orderDetails ++
            mkDetailRows orderId db.nextDetailId details,
          nextDetailId := db.nextDetailId + details.length }
  match fail with
  | some k => if k < details.length then Except.error () else committed
  | none => committed

end OrderDetailRepository

namespace OrderService

/-- `OrderService.createOrderWithDetails`: issues `BEGIN` on a dedicated
client, but no subsequent statement runs on that client — the order INSERT
goes through `query()` (`pool.query`, autocommit on another pooled
connection) and the detail INSERTs run inside `createForOrder`'s own
transaction on its own client.  The outer COMMIT/ROLLBACK therefore
commits/rolls back an empty transaction.  Failure indices: `0` = the order
INSERT; `1 + k` = the k-th detail INSERT.  When a detail INSERT fails, only
`createForOrder`'s own inserts are rolled back: the already-autocommitted
order row stays. -/
def createOrderWithDetails (db : DB) (o : OrderInput)
    (details : List DetailInput) (fail : Option Nat) : Except Unit Nat × DB :=
  match fail with
  | some 0 => (Except.error (), db)
  | _ =>
    let step := OrderRepository.create db o
    let orderId := step.1
    let db1 := step.2
    let detailFail : Option Nat :=
      match fail with
      | some (k + 1) => some k
      | _ => none
    match OrderDetailRepository.createForOrder db1 orderId details detailFail with
    | Except.error _ => (Except.error (), db1)
    | Except.ok db2 => (Except.ok orderId, db2)

end OrderService

end Pg

namespace My

/-! ## MySQL / local-filesystem revision (`src/unnamed/part_000`,
`dist/repository.js`).  Images live as files under `uploads/products`;
the external storage is the list of filenames present there. -/

/-- `process.env.BASE_URL || 'http://localhost:3000'` (default taken). -/
def baseUrl : String := "http://localhost:3000"

/-- `path.basename`: the part after the last `/`. -/
def basename (s : String) : String :=
  String.mk (((splitOnChar '/' s.data).getLast?).getD s.data)

namespace ProductRepository

/-- `ProductRepository.buildImageUrl`: null for a falsy filename; a string
that already starts with `http://` or `https://` is returned as is;
otherwise the `uploads/products` URL is prepended. -/
def buildImageUrl (filename : Option String) : Option String :=
  match filename with
  | none => none
  | some f =>
    if f = "" then none
    else if strStartsWith f "http://" || strStartsWith f "https://" then some f
    else some (baseUrl ++ "/uploads/products/" ++ f)

/-- `ProductRepository.extractFilename`: null for a falsy URL; a string with
no `/` is already a filename; otherwise the known prefixes are stripped
(first match), falling back to `path.basename`. -/
def extractFilename (imageUrl : Option String) : Option String :=
  match imageUrl with
  | none => none
  | some u =>
    if u = "" then none
    else if !(strContainsChar u '/') then some u
    else
      let p := baseUrl ++ "/uploads/products/"
      if strStartsWith u p then some (strDropChars u p.length)
      else if strStartsWith u "/uploads/products/" then
        some (strDropChars u "/uploads/products/".length)
      else some (basename u)

/-- `ProductRepository.findById`: `SELECT * FROM products WHERE id = ?`,
null when absent, with `image_url` mapped through `buildImageUrl`. -/
def findById (db : DB) (id : Nat) : Option ProductRow :=
  match db.products.find? (fun p => p.id = id) with
  | none => none
  | some p => some { p with image_url := buildImageUrl p.image_url }

/-- The filename `delete` would unlink for product `id`: the row's
`image_url` as served by `findById`, passed through `extractFilename`. -/
def imageFileOf (db : DB) (id : Nat) : Option String :=
  match findById db id with
  | none => none
  | some p => extractFilename p.image_url

/-- `ProductRepository.delete`: one connection, `beginTransaction`; the
statements in execution order are

0. `DELETE FROM moqs WHERE product_id = ?` (on the transaction connection),
1. the `SELECT` of `this.findById` (through the pool, so it reads the
   pre-transaction snapshot — which the MOQ delete does not affect),
2. `DELETE FROM products WHERE id = ?` (on the transaction connection),

then `commit`, returning `affectedRows > 0` of statement 2.  Between 1 and 2
the product's image file, when the row references one and it exists on disk,
is unlinked inside its own try/catch: an unlink failure (`unlinkFails`) is
logged and execution continues.  `fail = some k` makes DB statement `k`
raise: the catch block rolls the transaction back — restoring every row —
and rethrows; a file already unlinked stays deleted (the filesystem is not
part of the transaction). -/
def delete (db : DB) (files : List String) (id : Nat) (unlinkFails : Bool)
    (fail : Option Nat) : Except Unit Bool × DB × List String :=
  if fail = some 0 ∨ fail = some 1 then (Except.error (), db, files)
  else
    let files1 :=
      match imageFileOf db id with
      | some f =>
        if f ≠ "" ∧ f ∈ files ∧ ¬ unlinkFails then files.erase f else files
      | none => files
    if fail = some 2 then (Except.error (), db, files1)
    else
      (Except.ok (db.products.any (fun p => p.id = id)),
        { db with
            moqs := db.moqs.filter (fun m => ¬ m.product_id = id),
            products := db.products.filter (fun p => ¬ p.id = id) },
        files1)

end ProductRepository

namespace MOQRepository

/-- `MOQRepository.replaceMOQs`: own connection and transaction —
`DELETE FROM moqs WHERE product_id = ?`, one
`INSERT INTO moqs (product_id, moq, rate)` per element, commit; returns the
new insert ids.  As in the Postgres revision, no check that `productId`
exists. -/
def replaceMOQs (db : DB) (productId : Nat) (moqs : List MOQInput) :
    List Nat × DB :=
  let rows := mkMoqRows productId db.nextMoqId moqs
  (rows.map (fun r => r.id),
    { db with
        moqs := db.moqs.filter (fun m => ¬ m.product_id = productId) ++ rows,
        nextMoqId := db.nextMoqId + moqs.length })

end MOQRepository

namespace OrderRepository

/-- `OrderRepository.bulkUpdateStatus`: an empty id list returns `0` before
any SQL is built or executed; otherwise one
`UPDATE orderfile SET status = ? WHERE id IN (...)`.  The third component is
the trace of executed statements; the count is MySQL `affectedRows`
(rows actually changed). -/
def bulkUpdateStatus (db : DB) (orderIds : List Nat) (status : String) :
    Nat × DB × List String :=
  if orderIds.length = 0 then (0, db, [])
  else
    let placeholders := String.intercalate "," (orderIds.map (fun _ => "?"))
    ((db.orders.filter
        (fun o => orderIds.contains o.id && o.status != status)).length,
      { db with
          orders := db.orders.map
            (fun o => if o.id ∈ orderIds then { o with status := status } else o) },
      ["UPDATE orderfile SET status = ? WHERE id IN (" ++ placeholders ++ ")"])

/-- `OrderRepository.bulkCancel`: an empty id list returns `0` before any SQL
is built or executed; otherwise one
`UPDATE orderfile SET cancel = ?, status = "cancelled" WHERE id IN (...)`. -/
def bulkCancel (db : DB) (orderIds : List Nat) (cancel : Int) :
    Nat × DB × List String :=
  if orderIds.length = 0 then (0, db, [])
  else
    let placeholders := String.intercalate "," (orderIds.map (fun _ => "?"))
    ((db.orders.filter
        (fun o => orderIds.contains o.id &&
          (o.cancel != cancel || o.status != "cancelled"))).length,
      { db with
          orders := db.orders.map
            (fun o =>
              if o.id ∈ orderIds then
                { o with cancel := cancel, status := "cancelled" }
              else o) },
      ["UPDATE orderfile SET cancel = ?, status = \"cancelled\" WHERE id IN ("
        ++ placeholders ++ ")"])

end OrderRepository

end My

/-! ## Concrete fixtures (used by witnesses and counterexamples) -/

/-- A product row with id 1 and no images. -/
def sampleProduct : ProductRow :=
  { id := 1, name := "Widget", price := 999, description := "", active := "A",
    specialprice := none, image_url := none, image_url2 := none,
    image_url3 := none, image_url4 := none, groupid := none }

/-- A user row with id 1. -/
def sampleUser : UserRow :=
  { id := 1, name := "Ann", email := "ann@example.com", age := 30,
    password_hash := "hash", is_active := 1 }

/-- A database with one product and one user, both id 1. -/
def dbOne : DB :=
  { emptyDB with
    products := [sampleProduct], users := [sampleUser],
    nextProductId := 2, nextUserId := 2 }

/-- Product 5 of the `deleteProduct(5)` scenario: one stored image file. -/
def productFive : ProductRow :=
  { id := 5, name := "Widget", price := 999, description := "", active := "A",
    specialprice := none, image_url := some "p5.jpg", image_url2 := none,
    image_url3 := none, image_url4 := none, groupid := none }

/-- Database of the `deleteProduct(5)` scenario: product 5 with 2 MOQ rows. -/
def dbFive : DB :=
  { emptyDB with
    products := [productFive],
    moqs := [⟨1, 5, 10, 850⟩, ⟨2, 5, 50, 700⟩],
    nextProductId := 6, nextMoqId := 3 }

/-- Concrete order fields. -/
def orderW : Pg.OrderInput := { CustomerCode := "CUST1" }

/-- Concrete order detail lines. -/
def detailA : Pg.DetailInput := ⟨101, 2, 500, 1000⟩

def detailB : Pg.DetailInput := ⟨102, 1, 700, 700⟩

def detailC : Pg.DetailInput := ⟨103, 3, 100, 300⟩

/-- A Cloudinary secure URL as returned by an image upload. -/
def refW : String := "https://res.cloudinary.com/demo/image/upload/v1/products/a.jpg"

/-- Concrete `productData` for the product service. -/
def pdW : Pg.ProductService.ProductInput := { name := "Widget", price := 999 }

/-- A single-slot image payload whose upload yields `refW`. -/
def imgsW : Pg.ImagesIn := { image_url := some refW }

/-- Full product fields for `createProduct`. -/
def fieldsW : Pg.ProductFields :=
  { name := "Widget", price := 999, description := "desc", active := "A",
    specialprice := none, image_url := none, image_url2 := none,
    image_url3 := none, image_url4 := none, groupid := none }

/-! ## Helper lemmas -/

theorem filter_filter_not_pid (pid : Nat) (l : List MOQRow) :
    (l.filter (fun m => ¬ m.product_id = pid)).filter
      (fun m => m.product_id = pid) = [] := by
  induction l with
  | nil => rfl
  | cons x xs ih =>
    by_cases h : x.product_id = pid <;> simp [List.filter_cons, h, ih]

theorem mkMoqRows_filter_pid (pid s : Nat) (qs : List MOQInput) :
    (mkMoqRows pid s qs).filter (fun m => m.product_id = pid) =
      mkMoqRows pid s qs := by
  induction qs generalizing s with
  | nil => rfl
  | cons q qs ih => simp [mkMoqRows, List.filter_cons, ih]

theorem mkMoqRows_length (pid s : Nat) (qs : List MOQInput) :
    (mkMoqRows pid s qs).length = qs.length := by
  induction qs generalizing s with
  | nil => rfl
  | cons q qs ih => simp [mkMoqRows, ih]

theorem mkMoqRows_map_pairs (pid s : Nat) (qs : List MOQInput) :
    (mkMoqRows pid s qs).map (fun m => (m.moq, m.rate)) =
      qs.map (fun q => (q.moq, q.rate)) := by
  induction qs generalizing s with
  | nil => rfl
  | cons q qs ih => simp [mkMoqRows, ih]

theorem insertByMoq_perm (m : MOQRow) (l : List MOQRow) :
    (insertByMoq m l).Perm (m :: l) := by
  induction l with
  | nil => rfl
  | cons x xs ih =>
    by_cases h : m.moq ≤ x.moq
    · simp [insertByMoq, h]
    · simp only [insertByMoq, if_neg h]
      exact ((ih.cons x).trans (List.Perm.swap m x xs))

theorem sortByMoq_perm (l : List MOQRow) : (sortByMoq l).Perm l := by
  induction l with
  | nil => rfl
  | cons x xs ih => exact (insertByMoq_perm x (sortByMoq xs)).trans (ih.cons x)

theorem insertByMoq_sorted (m : MOQRow) (l : List MOQRow)
    (h : List.Sorted (fun a b : MOQRow => a.moq ≤ b.moq) l) :
    List.Sorted (fun a b : MOQRow => a.moq ≤ b.moq) (insertByMoq m l) := by
  induction l with
  | nil => simp [insertByMoq]
  | cons x xs ih =>
    rw [List.sorted_cons] at h
    by_cases hm : m.moq ≤ x.moq
    · rw [insertByMoq, if_pos hm, List.sorted_cons]
      refine ⟨?_, List.sorted_cons.2 h⟩
      intro b hb
      rcases List.mem_cons.1 hb with hb | hb
      · exact hb ▸ hm
      · exact le_trans hm (h.1 b hb)
    · rw [insertByMoq, if_neg hm, List.sorted_cons]
      refine ⟨?_, ih h.2⟩
      intro b hb
      have hb' := (insertByMoq_perm m xs).mem_iff.1 hb
      rcases List.mem_cons.1 hb' with hb' | hb'
      · subst hb'
        exact le_of_not_le hm
      · exact h.1 b hb'

theorem sortByMoq_sorted (l : List MOQRow) :
    List.Sorted (fun a b : MOQRow => a.moq ≤ b.moq) (sortByMoq l) := by
  induction l with
  | nil => simp [sortByMoq]
  | cons x xs ih => exact insertByMoq_sorted x _ ih

theorem insertByMoq_of_le (m : MOQRow) (l : List MOQRow)
    (h : ∀ b ∈ l, m.moq ≤ b.moq) : insertByMoq m l = m :: l := by
  cases l with
  | nil => rfl
  | cons x xs => rw [insertByMoq, if_pos (h x (List.mem_cons_self x xs))]

theorem sortByMoq_eq_self (l : List MOQRow)
    (h : List.Sorted (fun a b : MOQRow => a.moq ≤ b.moq) l) :
    sortByMoq l = l := by
  induction l with
  | nil => rfl
  | cons x xs ih =>
    rw [List.sorted_cons] at h
    rw [sortByMoq, ih h.2]
    exact insertByMoq_of_le x xs h.1

theorem mkMoqRows_sorted (pid s : Nat) (qs : List MOQInput)
    (h : List.Sorted (fun a b : MOQInput => a.moq ≤ b.moq) qs) :
    List.Sorted (fun a b : MOQRow => a.moq ≤ b.moq) (mkMoqRows pid s qs) := by
  induction qs generalizing s with
  | nil => simp [mkMoqRows]
  | cons q qs ih =>
    rw [List.sorted_cons] at h
    rw [mkMoqRows, List.sorted_cons]
    constructor
    · intro b hb
      have : ∃ q' ∈ qs, b.moq = q'.moq := by
        clear h ih
        induction qs generalizing s with
        | nil => simp [mkMoqRows] at hb
        | cons q' qs' ih' =>
          rw [mkMoqRows] at hb
          rcases List.mem_cons.1 hb with hb | hb
          · exact ⟨q', List.mem_cons_self q' qs', by simp [hb]⟩
          · rcases ih' (s + 1) hb with ⟨q'', hq'', he⟩
            exact ⟨q'', List.mem_cons_of_mem q' hq'', he⟩
      rcases this with ⟨q', hq', he⟩
      rw [he]
      exact h.1 q' hq'
    · exact ih (s + 1) h.2

example :
    (Pg.MOQRepository.setForProduct emptyDB 7 [⟨10, 850⟩]).1 = true ∧
      Pg.ProductRepository.findById emptyDB 7 = none := by
  decide

example :
    Pg.MOQRepository.findByProductId
      (Pg.MOQRepository.setForProduct emptyDB 7 [⟨50, 700⟩, ⟨10, 850⟩]).2 7 =
      [⟨2, 7, 10, 850⟩, ⟨1, 7, 50, 700⟩] := by
  decide

/-! ## Claim C8 -/

/-- C8: for every status value and every cancel flag,
`bulkUpdateStatus([], status)` and `bulkCancel([], flag)` are no-ops: they
return 0 affected rows, leave the database unchanged, and execute no SQL
statement beyond the empty-list check (empty statement trace); neither
raises on an empty id list. -/
theorem c8_bulk_empty_noop (db : DB) (status : String) (flag : Int) :
    My.OrderRepository.bulkUpdateStatus db [] status = (0, db, []) ∧
      My.OrderRepository.bulkCancel db [] flag = (0, db, []) :=
  ⟨rfl, rfl⟩

/-! ## Claim C6 -/

theorem setForProduct_nil_find (db : DB) (pid : Nat) :
    Pg.MOQRepository.findByProductId
      (Pg.MOQRepository.setForProduct db pid []).2 pid = [] := by
  simp only [Pg.MOQRepository.findByProductId, Pg.MOQRepository.setForProduct,
    mkMoqRows, List.append_nil]
  rw [filter_filter_not_pid]
  rfl

/-- C6: for every productId, `replaceMOQs(productId, [])` (`setForProduct`)
followed by `findMOQsByProduct(productId)` returns the empty list, and
clearing is idempotent: after a second `replaceMOQs(productId, [])` the
lookup still returns the same empty result. -/
theorem c6_clear_is_idempotent (db : DB) (pid : Nat) :
    Pg.MOQRepository.findByProductId
      (Pg.MOQRepository.setForProduct db pid []).2 pid = [] ∧
    Pg.MOQRepository.findByProductId
      (Pg.MOQRepository.setForProduct
        (Pg.MOQRepository.setForProduct db pid []).2 pid []).2 pid = [] :=
  ⟨setForProduct_nil_find db pid, setForProduct_nil_find _ pid⟩

/-! ## Claim C4 -/

/-- C4 counterexample: `setForProduct` (and `replaceMOQs`) on product id 7,
which does not exist (`findById` is null), succeeds silently — it returns
`true` (resp. the fresh insert ids) and inserts the MOQ row — instead of
failing with a "not found" error as the claim states. -/
theorem c4_counterexample :
    (Pg.MOQRepository.setForProduct emptyDB 7 [⟨10, 850⟩]).1 = true ∧
    (Pg.MOQRepository.setForProduct emptyDB 7 [⟨10, 850⟩]).2.moqs =
      [⟨1, 7, 10, 850⟩] ∧
    Pg.ProductRepository.findById emptyDB 7 = none ∧
    (My.MOQRepository.replaceMOQs emptyDB 7 [⟨10, 850⟩]).1 = [1] ∧
    My.ProductRepository.findById emptyDB 7 = none := by
  decide

/-- C4 amended: `setForProduct` / `replaceMOQs` perform no existence check
on `productId` at all: for every database and every `productId` — present
in `products` or not — the call succeeds (returns `true`, resp. the list of
fresh insert ids) and leaves exactly the given list as the product's MOQ
rows; a non-existent productId is never reported as "not found". -/
theorem c4_no_existence_check (db : DB) (pid : Nat) (moqs : List MOQInput) :
    (Pg.MOQRepository.setForProduct db pid moqs).1 = true ∧
    (Pg.MOQRepository.setForProduct db pid moqs).2.moqs.filter
        (fun m => m.product_id = pid) = mkMoqRows pid db.nextMoqId moqs ∧
    (My.MOQRepository.replaceMOQs db pid moqs).1 =
      (mkMoqRows pid db.nextMoqId moqs).map (fun r => r.id) ∧
    (My.MOQRepository.replaceMOQs db pid moqs).2.moqs.filter
        (fun m => m.product_id = pid) = mkMoqRows pid db.nextMoqId moqs := by
  refine ⟨rfl, ?_, rfl, ?_⟩ <;>
    · simp only [Pg.MOQRepository.setForProduct, My.MOQRepository.replaceMOQs,
        List.filter_append]
      rw [filter_filter_not_pid, mkMoqRows_filter_pid]
      rfl

/-! ## Claim C10 -/

theorem map_map_involutive {α : Type} (f : α → α) (l : List α)
    (h : ∀ a ∈ l, f (f a) = a) : (l.map f).map f = l := by
  induction l with
  | nil => rfl
  | cons x xs ih =>
    simp only [List.map_cons]
    rw [h x (List.mem_cons_self x xs),
      ih (fun a ha => h a (List.mem_cons_of_mem x ha))]

theorem product_toggleRow_involutive (id : Nat) (r : ProductRow)
    (h : r.id = id → r.active = "A" ∨ r.active = "I") :
    Pg.ProductRepository.toggleRow id (Pg.ProductRepository.toggleRow id r) = r := by
  cases r with
  | mk rid rname rprice rdesc ractive rsp ru1 ru2 ru3 ru4 rg =>
    unfold Pg.ProductRepository.toggleRow
    by_cases hid : rid = id
    · rcases h (by simpa using hid) with h1 | h1 <;> simp_all
    · simp_all

theorem user_toggleRow_involutive (id : Nat) (u : UserRow)
    (h : u.id = id → u.is_active = 0 ∨ u.is_active = 1) :
    Pg.UserRepository.toggleRow id (Pg.UserRepository.toggleRow id u) = u := by
  cases u with
  | mk uid uname uemail uage upw uact =>
    unfold Pg.UserRepository.toggleRow
    by_cases hid : uid = id
    · rcases h (by simpa using hid) with h1 | h1 <;> simp_all
    · simp_all

/-- C10: `toggleActive` is an involution on the active flag: on every
database whose rows with the given id have `active ∈ {'A','I'}` (products)
resp. `is_active ∈ {0,1}` (users), applying `toggleActive` twice restores
the original rows; one application flips every matched row's flag to the
other value (`'A' ↦ 'I'`, `'I' ↦ 'A'`; `1 ↦ 0`, `0 ↦ 1`) and changes no
column other than the flag (and flips nothing on rows with a different
id). -/
theorem c10_toggleActive_involution (db : DB) (id : Nat)
    (hp : ∀ r ∈ db.products, r.id = id → r.active = "A" ∨ r.active = "I")
    (hu : ∀ u ∈ db.users, u.id = id → u.is_active = 0 ∨ u.is_active = 1) :
    (Pg.ProductRepository.toggleActive
        (Pg.ProductRepository.toggleActive db id).2 id).2.products =
      db.products ∧
    (Pg.UserRepository.toggleActive
        (Pg.UserRepository.toggleActive db id).2 id).2.users = db.users ∧
    (∀ r : ProductRow,
      (Pg.ProductRepository.toggleRow id r).id = r.id ∧
      (Pg.ProductRepository.toggleRow id r).name = r.name ∧
      (Pg.ProductRepository.toggleRow id r).price = r.price ∧
      (Pg.ProductRepository.toggleRow id r).description = r.description ∧
      (Pg.ProductRepository.toggleRow id r).specialprice = r.specialprice ∧
      (Pg.ProductRepository.toggleRow id r).image_url = r.image_url ∧
      (Pg.ProductRepository.toggleRow id r).image_url2 = r.image_url2 ∧
      (Pg.ProductRepository.toggleRow id r).image_url3 = r.image_url3 ∧
      (Pg.ProductRepository.toggleRow id r).image_url4 = r.image_url4 ∧
      (Pg.ProductRepository.toggleRow id r).groupid = r.groupid ∧
      (¬ r.id = id → (Pg.ProductRepository.toggleRow id r).active = r.active)) ∧
    (∀ u : UserRow,
      (Pg.UserRepository.toggleRow id u).id = u.id ∧
      (Pg.UserRepository.toggleRow id u).name = u.name ∧
      (Pg.UserRepository.toggleRow id u).email = u.email ∧
      (Pg.UserRepository.toggleRow id u).age = u.age ∧
      (Pg.UserRepository.toggleRow id u).password_hash = u.password_hash ∧
      (¬ u.id = id → (Pg.UserRepository.toggleRow id u).is_active = u.is_active)) ∧
    (∀ r : ProductRow, r.id = id →
      (r.active = "A" → (Pg.ProductRepository.toggleRow id r).active = "I") ∧
      (r.active = "I" → (Pg.ProductRepository.toggleRow id r).active = "A")) ∧
    (∀ u : UserRow, u.id = id →
      (u.is_active = 1 → (Pg.UserRepository.toggleRow id u).is_active = 0) ∧
      (u.is_active = 0 → (Pg.UserRepository.toggleRow id u).is_active = 1)) := by
  refine ⟨?_, ?_, ?_, ?_, ?_, ?_⟩
  · exact map_map_involutive (Pg.ProductRepository.toggleRow id) db.products
      (fun r hr => product_toggleRow_involutive id r (hp r hr))
  · exact map_map_involutive (Pg.UserRepository.toggleRow id) db.users
      (fun u hu' => user_toggleRow_involutive id u (hu u hu'))
  · intro r
    unfold Pg.ProductRepository.toggleRow
    by_cases hid : r.id = id <;> simp [hid]
  · intro u
    unfold Pg.UserRepository.toggleRow
    by_cases hid : u.id = id <;> simp [hid]
  · intro r hid
    unfold Pg.ProductRepository.toggleRow
    constructor
    · intro ha
      simp [hid, ha]
    · intro ha
      simp [hid, ha]
  · intro u hid
    unfold Pg.UserRepository.toggleRow
    constructor
    · intro ha
      simp [hid, ha]
    · intro ha
      simp [hid, ha]

/-- C10 witness: on the concrete one-product, one-user database, toggling
id 1 twice restores both tables, and one toggle flips product 1's flag
from 'A' to 'I' and user 1's flag from 1 to 0. -/
theorem c10_witness :
    (Pg.ProductRepository.toggleActive
        (Pg.ProductRepository.toggleActive dbOne 1).2 1).2.products =
      dbOne.products ∧
    (Pg.UserRepository.toggleActive
        (Pg.UserRepository.toggleActive dbOne 1).2 1).2.users = dbOne.users ∧
    (Pg.ProductRepository.toggleRow 1 sampleProduct).active = "I" ∧
    (Pg.UserRepository.toggleRow 1 sampleUser).is_active = 0 :=
  ⟨(c10_toggleActive_involution dbOne 1 (by decide) (by decide)).1,
   (c10_toggleActive_involution dbOne 1 (by decide) (by decide)).2.1,
   ((c10_toggleActive_involution dbOne 1 (by decide) (by decide)).2.2.2.2.1
      sampleProduct rfl).1 rfl,
   ((c10_toggleActive_involution dbOne 1 (by decide) (by decide)).2.2.2.2.2
      sampleUser rfl).1 rfl⟩

/-! ## Claim C9 -/

theorem find?_id_append_fresh (l : List ProductRow) (pid : Nat)
    (r0 : ProductRow) (hfresh : ∀ r ∈ l, r.id < pid) (h0 : r0.id = pid) :
    (l ++ [r0]).find? (fun r => r.id = pid) = some r0 := by
  rw [List.find?_append]
  have hn : l.find? (fun r => r.id = pid) = none := by
    rw [List.find?_eq_none]
    intro r hr
    simp only [decide_eq_true_eq]
    exact Nat.ne_of_lt (hfresh r hr)
  rw [hn]
  simp [List.find?, h0]

theorem map_update_fresh (l : List ProductRow) (pid : Nat)
    (g : ProductRow → ProductRow) (hfresh : ∀ r ∈ l, r.id < pid) :
    l.map (fun r => if r.id = pid then g r else r) = l := by
  induction l with
  | nil => rfl
  | cons x xs ih =>
    have hx : ¬ x.id = pid := Nat.ne_of_lt (hfresh x (List.mem_cons_self x xs))
    simp only [List.map_cons, if_neg hx]
    rw [ih (fun r hr => hfresh r (List.mem_cons_of_mem x hr))]

/-- C9: a partial update includes only the keys present in the partial in
the SET clause: on any well-formed database (existing ids below the
sequence value), `createProduct` then `updateProduct(id, {price})` yields a
`findById` that reflects exactly the price change — the looked-up row is
the created row with only `price` replaced, every other field unchanged —
and the update reports `true`. -/
theorem c9_partial_update_frame (db : DB) (f : Pg.ProductFields) (p : Int)
    (wf : ∀ r ∈ db.products, r.id < db.nextProductId) :
    (Pg.ProductRepository.updateProduct
        (Pg.ProductRepository.createProduct db f).2
        (Pg.ProductRepository.createProduct db f).1
        { price := some p }).1 = true ∧
    Pg.ProductRepository.findById (Pg.ProductRepository.createProduct db f).2
        (Pg.ProductRepository.createProduct db f).1 =
      some (Pg.ProductFields.toRow f db.nextProductId) ∧
    Pg.ProductRepository.findById
        (Pg.ProductRepository.updateProduct
          (Pg.ProductRepository.createProduct db f).2
          (Pg.ProductRepository.createProduct db f).1
          { price := some p }).2
        (Pg.ProductRepository.createProduct db f).1 =
      some { Pg.ProductFields.toRow f db.nextProductId with price := p } := by
  have hrow : (Pg.ProductFields.toRow f db.nextProductId).id = db.nextProductId := rfl
  refine ⟨?_, ?_, ?_⟩
  · simp only [Pg.ProductRepository.updateProduct, Pg.ProductRepository.createProduct]
    rw [if_neg (by simp [Pg.ProductPatch.isEmpty])]
    simp only [List.any_append]
    have : [Pg.ProductFields.toRow f db.nextProductId].any
        (fun r => r.id = db.nextProductId) = true := by
      simp [hrow]
    simp [this]
  · simp only [Pg.ProductRepository.findById, Pg.ProductRepository.createProduct]
    exact find?_id_append_fresh db.products db.nextProductId _ wf hrow
  · simp only [Pg.ProductRepository.findById, Pg.ProductRepository.updateProduct,
      Pg.ProductRepository.createProduct]
    rw [if_neg (by simp [Pg.ProductPatch.isEmpty])]
    simp only [List.map_append]
    rw [map_update_fresh db.products db.nextProductId _ wf]
    have happ : (List.map
        (fun r => if r.id = db.nextProductId
          then Pg.applyPatch { price := some p } r else r)
        [Pg.ProductFields.toRow f db.nextProductId]) =
        [{ Pg.ProductFields.toRow f db.nextProductId with price := p }] := by
      simp [hrow, Pg.applyPatch]
    rw [happ]
    exact find?_id_append_fresh db.products db.nextProductId _ wf rfl

/-- C9 witness: the frame property at the empty database with concrete
fields and price 1200. -/
theorem c9_witness :
    (Pg.ProductRepository.updateProduct
        (Pg.ProductRepository.createProduct emptyDB fieldsW).2
        (Pg.ProductRepository.createProduct emptyDB fieldsW).1
        { price := some 1200 }).1 = true ∧
    Pg.ProductRepository.findById
        (Pg.ProductRepository.createProduct emptyDB fieldsW).2
        (Pg.ProductRepository.createProduct emptyDB fieldsW).1 =
      some (Pg.ProductFields.toRow fieldsW emptyDB.nextProductId) ∧
    Pg.ProductRepository.findById
        (Pg.ProductRepository.updateProduct
          (Pg.ProductRepository.createProduct emptyDB fieldsW).2
          (Pg.ProductRepository.createProduct emptyDB fieldsW).1
          { price := some 1200 }).2
        (Pg.ProductRepository.createProduct emptyDB fieldsW).1 =
      some { Pg.ProductFields.toRow fieldsW emptyDB.nextProductId with
              price := 1200 } :=
  c9_partial_update_frame emptyDB fieldsW 1200 (by decide)

/-! ## Claim C7 -/

/-- C7 counterexample: `updateProductWithImages` on product id 5 of the
empty database — no matching product row — raises
`Error('Product not found')` (after rolling back) instead of returning
`false` as the claim states. -/
theorem c7_counterexample :
    (Pg.ProductService.updateProductWithImages emptyDB [] 5 {} none none).1 =
      Except.error "Product not found" ∧
    ¬ (Pg.ProductService.updateProductWithImages emptyDB [] 5 {} none none).1 =
      Except.ok false := by
  exact ⟨rfl, fun h => Except.noConfusion h⟩

/-- C7 amended: `updateProductWithImages` raises `'Product not found'`
(leaving database and storage unchanged) for every productId with no
matching product row — it does not return `false` — and for every existing
product a successful run commits and returns `true`. -/
theorem c7_update_returns (db : DB) (storage : List String) (pid : Nat)
    (pd : Pg.ProductPatch) (moqs : Option (List MOQInput))
    (images : Option Pg.ImagesIn) :
    (Pg.ProductRepository.findById db pid = none →
      Pg.ProductService.updateProductWithImages db storage pid pd moqs images =
        (Except.error "Product not found", db, storage)) ∧
    (∀ r, Pg.ProductRepository.findById db pid = some r →
      (Pg.ProductService.updateProductWithImages db storage pid pd moqs
        images).1 = Except.ok true) := by
  constructor
  · intro h
    simp [Pg.ProductService.updateProductWithImages, h]
  · intro r h
    simp [Pg.ProductService.updateProductWithImages, h]

/-- C7 witness: on the empty database id 5 yields the not-found error with
state unchanged; on the one-product database id 1 returns `true`. -/
theorem c7_witness :
    Pg.ProductService.updateProductWithImages emptyDB [] 5 {} none none =
      (Except.error "Product not found", emptyDB, []) ∧
    (Pg.ProductService.updateProductWithImages dbOne [] 1 {} none none).1 =
      Except.ok true :=
  ⟨(c7_update_returns emptyDB [] 5 {} none none).1 rfl,
   (c7_update_returns dbOne [] 1 {} none none).2 sampleProduct rfl⟩

/-! ## Claim C2 -/

/-- C2 counterexample: `createProductWithImages` uploads the image for
`imgsW` (its Cloudinary reference `refW` enters storage), then the product
INSERT fails (`fail = some 0`): the operation reports the error, yet the
uploaded reference is still present in image storage afterwards — the catch
block only rolls the transaction back and never deletes the upload,
contradicting the claim that storage no longer contains the reference. -/
theorem c2_counterexample :
    (Pg.ProductService.createProductWithImages emptyDB [] pdW []
        (some imgsW) (some 0)).1 = Except.error () ∧
    refW ∈ (Pg.ProductService.createProductWithImages emptyDB [] pdW []
        (some imgsW) (some 0)).2.2 := by
  refine ⟨rfl, ?_⟩
  show refW ∈ [refW]
  exact List.mem_singleton_self refW

/-- C2 amended: when any transaction statement of `createProductWithImages`
fails after the images were uploaded, the transaction is rolled back — the
database is exactly the initial one, so no product or MOQ row of the
attempt is observable — but no compensation runs: every uploaded reference
remains in image storage. -/
theorem c2_rollback_keeps_uploads (db : DB) (storage : List String)
    (pd : Pg.ProductService.ProductInput) (moqs : List MOQInput)
    (imgs : Pg.ImagesIn) (k : Nat) (hk : k < 1 + moqs.length) :
    Pg.ProductService.createProductWithImages db storage pd moqs (some imgs)
        (some k) = (Except.error (), db, storage ++ imgs.refs) ∧
    ∀ ref ∈ imgs.refs, ref ∈
      (Pg.ProductService.createProductWithImages db storage pd moqs
        (some imgs) (some k)).2.2 := by
  have h : Pg.ProductService.createProductWithImages db storage pd moqs
      (some imgs) (some k) = (Except.error (), db, storage ++ imgs.refs) := by
    simp [Pg.ProductService.createProductWithImages,
      Pg.ProductService.uploadProductImages, hk]
  refine ⟨h, fun ref hr => ?_⟩
  rw [h]
  exact List.mem_append_right storage hr

/-- C2 witness: the rollback-keeps-uploads behaviour at the concrete failing
input of the counterexample. -/
theorem c2_witness :
    Pg.ProductService.createProductWithImages emptyDB [] pdW []
        (some imgsW) (some 0) =
      (Except.error (), emptyDB, [] ++ imgsW.refs) :=
  (c2_rollback_keeps_uploads emptyDB [] pdW [] imgsW 0 (by decide)).1

/-! ## Claim C1 -/

/-- C1: `createOrderWithDetails` at a 3-detail input.  With no failure it
returns the new order id 1 and exactly 3 detail rows with `orderId = 1`.
But when the 2nd detail INSERT fails (`fail = some 2`), the operation
reports the error while the committed order row is still present and no
detail row is — the order INSERT ran autocommitted on a pooled connection
outside the `BEGIN` client, so the claimed all-or-nothing behaviour does
not hold. -/
theorem c1_order_survives_detail_failure :
    (Pg.OrderService.createOrderWithDetails emptyDB orderW
        [detailA, detailB, detailC] none).1 = Except.ok 1 ∧
    ((Pg.OrderService.createOrderWithDetails emptyDB orderW
        [detailA, detailB, detailC] none).2.orderDetails.filter
        (fun d => d.orderId = 1)).length = 3 ∧
    (Pg.OrderService.createOrderWithDetails emptyDB orderW
        [detailA, detailB, detailC] (some 2)).1 = Except.error () ∧
    ((Pg.OrderService.createOrderWithDetails emptyDB orderW
        [detailA, detailB, detailC] (some 2)).2.orders.filter
        (fun o => o.id = 1)).length = 1 ∧
    (Pg.OrderService.createOrderWithDetails emptyDB orderW
        [detailA, detailB, detailC] (some 2)).2.orderDetails = [] := by
  refine ⟨rfl, rfl, rfl, rfl, rfl⟩

/-! ## Claim C3 -/

theorem find?_id_filter_not (l : List ProductRow) (id : Nat) :
    (l.filter (fun p => ¬ p.id = id)).find? (fun p => p.id = id) = none := by
  rw [List.find?_eq_none]
  intro p hp
  have h2 := (List.mem_filter.1 hp).2
  simp only [decide_not, Bool.not_eq_eq_eq_not, Bool.not_true,
    decide_eq_false_iff_not] at h2
  simpa using h2

/-- C3: `ProductRepository.delete` (the MySQL revision's `deleteProduct`)
runs within one transaction.  On success — regardless of whether the
storage unlink fails — it reports whether the product row existed, and
afterwards the product has no MOQ rows and no product row; when the row
references an image file that exists and the unlink succeeds, the file is
gone from storage; when the unlink fails it is merely logged: storage is
untouched and the operation still succeeds.  When any of the three database
statements fails, the transaction rolls back — the database is unchanged —
and the error is surfaced: the operation fails only on a database error,
never on a storage-deletion error. -/
theorem c3_delete_cascades_besteffort (db : DB) (files : List String)
    (id : Nat) (unlinkFails : Bool) (hnd : files.Nodup) :
    (My.ProductRepository.delete db files id unlinkFails none).1 =
      Except.ok (db.products.any (fun p => p.id = id)) ∧
    ((My.ProductRepository.delete db files id unlinkFails
        none).2.1.moqs.filter (fun m => m.product_id = id)) = [] ∧
    ((My.ProductRepository.delete db files id unlinkFails
        none).2.1.products.find? (fun p => p.id = id)) = none ∧
    (∀ f, My.ProductRepository.imageFileOf db id = some f → ¬ f = "" →
      f ∈ files → unlinkFails = false →
      ¬ f ∈ (My.ProductRepository.delete db files id unlinkFails none).2.2) ∧
    (unlinkFails = true →
      (My.ProductRepository.delete db files id unlinkFails none).2.2 =
        files) ∧
    (∀ k, k ≤ 2 →
      (My.ProductRepository.delete db files id unlinkFails (some k)).1 =
        Except.error () ∧
      (My.ProductRepository.delete db files id unlinkFails (some k)).2.1 =
        db) := by
  refine ⟨?_, ?_, ?_, ?_, ?_, ?_⟩
  · simp [My.ProductRepository.delete]
  · simp only [My.ProductRepository.delete]
    rw [if_neg (by simp)]
    rw [if_neg (by simp)]
    exact filter_filter_not_pid id db.moqs
  · simp only [My.ProductRepository.delete]
    rw [if_neg (by simp)]
    rw [if_neg (by simp)]
    exact find?_id_filter_not db.products id
  · intro f hf hne hmem hu
    subst hu
    simp only [My.ProductRepository.delete]
    rw [if_neg (by simp)]
    rw [if_neg (by simp)]
    simp only [hf]
    rw [if_pos ⟨hne, hmem, by simp⟩]
    intro hcon
    have := (List.Nodup.mem_erase_iff hnd).1 hcon
    exact this.1 rfl
  · intro hu
    subst hu
    simp only [My.ProductRepository.delete]
    rw [if_neg (by simp)]
    rw [if_neg (by simp)]
    cases hf : My.ProductRepository.imageFileOf db id with
    | none => simp
    | some f => simp
  · intro k hk
    interval_cases k
    · exact ⟨by simp [My.ProductRepository.delete], by simp [My.ProductRepository.delete]⟩
    · exact ⟨by simp [My.ProductRepository.delete], by simp [My.ProductRepository.delete]⟩
    · exact ⟨by simp [My.ProductRepository.delete], by simp [My.ProductRepository.delete]⟩

/-- C3 witness: the `deleteProduct(5)` scenario — product 5 with 2 MOQ rows
and one stored image file `p5.jpg` on disk.  After the call the MOQ lookup
is empty, the product lookup is absent, the image file is gone, the call
reports success; and a failure of the final DELETE instead leaves the
database unchanged and surfaces the error. -/
theorem c3_witness :
    (My.ProductRepository.delete dbFive ["p5.jpg"] 5 false none).1 =
      Except.ok true ∧
    ((My.ProductRepository.delete dbFive ["p5.jpg"] 5 false
        none).2.1.moqs.filter (fun m => m.product_id = 5)) = [] ∧
    ((My.ProductRepository.delete dbFive ["p5.jpg"] 5 false
        none).2.1.products.find? (fun p => p.id = 5)) = none ∧
    ¬ "p5.jpg" ∈
      (My.ProductRepository.delete dbFive ["p5.jpg"] 5 false none).2.2 ∧
    (My.ProductRepository.delete dbFive ["p5.jpg"] 5 false (some 2)).1 =
      Except.error () ∧
    (My.ProductRepository.delete dbFive ["p5.jpg"] 5 false (some 2)).2.1 =
      dbFive :=
  ⟨(c3_delete_cascades_besteffort dbFive ["p5.jpg"] 5 false (by decide)).1,
   (c3_delete_cascades_besteffort dbFive ["p5.jpg"] 5 false (by decide)).2.1,
   (c3_delete_cascades_besteffort dbFive ["p5.jpg"] 5 false (by decide)).2.2.1,
   (c3_delete_cascades_besteffort dbFive ["p5.jpg"] 5 false
      (by decide)).2.2.2.1 "p5.jpg" (by decide) (by decide) (by decide) rfl,
   ((c3_delete_cascades_besteffort dbFive ["p5.jpg"] 5 false
      (by decide)).2.2.2.2.2 2 (by decide)).1,
   ((c3_delete_cascades_besteffort dbFive ["p5.jpg"] 5 false
      (by decide)).2.2.2.2.2 2 (by decide)).2⟩

/-! ## Claim C5 -/

/-- C5 counterexample: creating a product with the MOQ list
`[{moq:50,rate:700}, {moq:10,rate:850}]` and reading it back with
`findMOQsByProduct` returns the rows ascending by `moq` —
`[(10,850), (50,700)]` — not in the order inserted, refuting the claim's
"in the order inserted" for a non-ascending input list. -/
theorem c5_counterexample :
    ((Pg.MOQRepository.findByProductId
        (Pg.ProductService.createProductWithImages emptyDB [] pdW
          [⟨50, 700⟩, ⟨10, 850⟩] none none).2.1 1).map
        (fun m => (m.moq, m.rate))) = [(10, 850), (50, 700)] ∧
    ¬ ((Pg.MOQRepository.findByProductId
        (Pg.ProductService.createProductWithImages emptyDB [] pdW
          [⟨50, 700⟩, ⟨10, 850⟩] none none).2.1 1).map
        (fun m => (m.moq, m.rate))) = [(50, 700), (10, 850)] := by
  decide

/-- C5 amended: for every product creation with N MOQ tiers (on a
well-formed database: no MOQ row already references the fresh product id),
a successful `createProductWithImages` returns the new product id, and
`findMOQsByProduct` on it returns exactly N rows whose `(moq, rate)` pairs
are a permutation of the input list, ordered ascending by `moq`; when the
input list itself ascends by `moq` (as in the concrete scenario) the rows
come back exactly in the order inserted. -/
theorem c5_moqs_sorted_roundtrip (db : DB) (storage : List String)
    (pd : Pg.ProductService.ProductInput) (moqs : List MOQInput)
    (images : Option Pg.ImagesIn)
    (wf : ∀ m ∈ db.moqs, ¬ m.product_id = db.nextProductId) :
    (Pg.ProductService.createProductWithImages db storage pd moqs images
        none).1 = Except.ok db.nextProductId ∧
    Pg.MOQRepository.findByProductId
        (Pg.ProductService.createProductWithImages db storage pd moqs images
          none).2.1 db.nextProductId =
      sortByMoq (mkMoqRows db.nextProductId db.nextMoqId moqs) ∧
    (Pg.MOQRepository.findByProductId
        (Pg.ProductService.createProductWithImages db storage pd moqs images
          none).2.1 db.nextProductId).length = moqs.length ∧
    ((Pg.MOQRepository.findByProductId
        (Pg.ProductService.createProductWithImages db storage pd moqs images
          none).2.1 db.nextProductId).map
        (fun m => (m.moq, m.rate))).Perm
      (moqs.map (fun q => (q.moq, q.rate))) ∧
    List.Sorted (fun a b : MOQRow => a.moq ≤ b.moq)
      (Pg.MOQRepository.findByProductId
        (Pg.ProductService.createProductWithImages db storage pd moqs images
          none).2.1 db.nextProductId) ∧
    (List.Sorted (fun a b : MOQInput => a.moq ≤ b.moq) moqs →
      (Pg.MOQRepository.findByProductId
          (Pg.ProductService.createProductWithImages db storage pd moqs images
            none).2.1 db.nextProductId).map (fun m => (m.moq, m.rate)) =
        moqs.map (fun q => (q.moq, q.rate))) := by
  have hok : (Pg.ProductService.createProductWithImages db storage pd moqs
      images none).1 = Except.ok db.nextProductId := by
    cases images <;> rfl
  have hmoqs : (Pg.ProductService.createProductWithImages db storage pd moqs
      images none).2.1.moqs =
      db.moqs ++ mkMoqRows db.nextProductId db.nextMoqId moqs := by
    cases images <;> rfl
  have hfind : Pg.MOQRepository.findByProductId
      (Pg.ProductService.createProductWithImages db storage pd moqs images
        none).2.1 db.nextProductId =
      sortByMoq (mkMoqRows db.nextProductId db.nextMoqId moqs) := by
    rw [Pg.MOQRepository.findByProductId, hmoqs, List.filter_append]
    have hnil : db.moqs.filter
        (fun m => m.product_id = db.nextProductId) = [] := by
      rw [List.filter_eq_nil_iff]
      intro m hm
      simpa using wf m hm
    rw [hnil, mkMoqRows_filter_pid, List.nil_append]
  have hperm : (sortByMoq (mkMoqRows db.nextProductId db.nextMoqId
      moqs)).Perm (mkMoqRows db.nextProductId db.nextMoqId moqs) :=
    sortByMoq_perm _
  refine ⟨hok, hfind, ?_, ?_, ?_, ?_⟩
  · rw [hfind, hperm.length_eq, mkMoqRows_length]
  · rw [hfind]
    have := hperm.map (fun m : MOQRow => (m.moq, m.rate))
    rw [mkMoqRows_map_pairs] at this
    exact this
  · rw [hfind]
    exact sortByMoq_sorted _
  · intro hs
    rw [hfind, sortByMoq_eq_self _ (mkMoqRows_sorted _ _ _ hs),
      mkMoqRows_map_pairs]

/-- C5 witness: the concrete scenario — MOQs `[{10,850},{50,700}]`
(ascending) on the empty database come back exactly as inserted,
2 rows. -/
theorem c5_witness :
    (Pg.ProductService.createProductWithImages emptyDB [] pdW
        [⟨10, 850⟩, ⟨50, 700⟩] none none).1 = Except.ok 1 ∧
    (Pg.MOQRepository.findByProductId
        (Pg.ProductService.createProductWithImages emptyDB [] pdW
          [⟨10, 850⟩, ⟨50, 700⟩] none none).2.1 1).length = 2 ∧
    (Pg.MOQRepository.findByProductId
        (Pg.ProductService.createProductWithImages emptyDB [] pdW
          [⟨10, 850⟩, ⟨50, 700⟩] none none).2.1 1).map
        (fun m => (m.moq, m.rate)) = [(10, 850), (50, 700)] :=
  ⟨(c5_moqs_sorted_roundtrip emptyDB [] pdW [⟨10, 850⟩, ⟨50, 700⟩] none
      (by decide)).1,
   (c5_moqs_sorted_roundtrip emptyDB [] pdW [⟨10, 850⟩, ⟨50, 700⟩] none
      (by decide)).2.2.1,
   (c5_moqs_sorted_roundtrip emptyDB [] pdW [⟨10, 850⟩, ⟨50, 700⟩] none
      (by decide)).2.2.2.2.2 (by decide)⟩
